import Mathlib

/-!
Shallow embedding of the streaming subsystem of the ksql-go client
(src/client.go) and verification of its specified properties.

Conventions:
* Go `interface{}` values decoded from JSON are modelled by `KsqlGo.JValue`.
* Fallible Go calls are modelled by `Except String _` results; a call on an
  external collaborator (HTTP transport, response body) is modelled by
  passing its outcome in as an argument, since the collaborator is outside
  this repository.
* Observable side effects (closing a resource, sending on a channel) are
  modelled as events appended to a trace list, in program order.
* Go panics (out-of-range index, failed type assertion, send on a closed
  channel) are modelled by explicit outcome constructors, never by silently
  total functions.
-/

namespace KsqlGo

/-- A decoded JSON value, the model of a Go `interface{}` produced by
`json.Unmarshal`.  Object fields are kept as an association list; Go's
decoder resolves duplicate keys before the map is visible, so lists built
here are assumed duplicate-free and looked up by first match. -/
inductive JValue where
  | null : JValue
  | bool (b : Bool) : JValue
  | num (n : Int) : JValue
  | str (s : String) : JValue
  | arr (elems : List JValue) : JValue
  | obj (fields : List (String × JValue)) : JValue
deriving Repr

/-- Go map indexing `m["k"]` with the comma-ok form: first matching field. -/
def jlookup (fields : List (String × JValue)) (k : String) : Option JValue :=
  match fields with
  | [] => none
  | (k0, v) :: rest => if k0 = k then some v else jlookup rest k

/-- `json.Unmarshal(by, &m)` for `m : map[string]interface{}`: succeeds on a
JSON object (yielding its fields) and on JSON `null` (leaving the nil map),
fails on every other top-level shape. -/
def unmarshalMap : JValue → Option (List (String × JValue))
  | .obj fields => some fields
  | .null => some []
  | _ => none

/-- Element-wise decoding of a JSON array into Go maps: every element must
itself unmarshal as a map, or the whole decode fails. -/
def unmarshalMapList : List JValue → Option (List (List (String × JValue)))
  | [] => some []
  | v :: rest =>
    match unmarshalMap v with
    | none => none
    | some m =>
      match unmarshalMapList rest with
      | none => none
      | some ms => some (m :: ms)

/-- `json.Unmarshal(by, &resultsRaw)` for `resultsRaw : []map[string]interface{}`:
the top level must be an array (or `null`, leaving a nil slice) and every
element must itself unmarshal as a map. -/
def unmarshalMapSlice : JValue → Option (List (List (String × JValue)))
  | .arr elems => unmarshalMapList elems
  | .null => some []
  | _ => none

/-- The `columns` schema descriptor shared by both query paths:
a column count and the ordered column names.  The count is an `Int`
because `-1` is used as the unknown-schema sentinel. -/
structure columns where
  count : Int
  names : List String
deriving Repr, DecidableEq

/-- Outcome of the post-decode part of `Client.Query` (src/client.go:76-99).
`panicOOB` models the Go runtime panic of `resultsRaw[0]` on an empty slice;
`panicAssert` models the unchecked type assertion `schema.(string)`. -/
inductive QueryOutcome where
  | ok (rows : List (List (String × JValue))) (cols : columns) : QueryOutcome
  | queryErr (result : List (String × JValue)) : QueryOutcome
  | decodeErr : QueryOutcome
  | panicOOB : QueryOutcome
  | panicAssert : QueryOutcome
deriving Repr

/-- The header-processing logic of `Client.Query` (src/client.go:85-99),
applied to the decoded `resultsRaw` slice.  `parseSchemaKeys` is defined in
a file of the repository outside src/, so it is passed in abstractly.

Mirrors the source exactly: initialise `cols` with `count: -1`; if
`resultsRaw[0]` has a `"header"` key whose value is a map with a `"schema"`
key, set `names := parseSchemaKeys(schema.(string))` and
`count := len(names)`; return `resultsRaw[1:]` with `cols`.  Indexing
`resultsRaw[0]` on an empty slice panics, and `schema.(string)` panics on a
non-string value. -/
def queryProcessResults (parseSchemaKeys : String → List String)
    (resultsRaw : List (List (String × JValue))) : QueryOutcome :=
  match resultsRaw with
  | [] => .panicOOB
  | first :: rest =>
    match jlookup first "header" with
    | none => .ok rest { count := -1, names := [] }
    | some h =>
      match h with
      | .obj headerMap =>
        match jlookup headerMap "schema" with
        | none => .ok rest { count := -1, names := [] }
        | some schema =>
          match schema with
          | .str s =>
              .ok rest
                { count := (parseSchemaKeys s).length
                  names := parseSchemaKeys s }
          | _ => .panicAssert
      | _ => .ok rest { count := -1, names := [] }

/-- The two unmarshal attempts of `Client.Query` (src/client.go:76-84)
followed by the header processing above. -/
def queryProcess (parseSchemaKeys : String → List String) (body : JValue) :
    QueryOutcome :=
  match unmarshalMap body with
  | some statementError => .queryErr statementError
  | none =>
    match unmarshalMapSlice body with
    | none => .decodeErr
    | some resultsRaw => queryProcessResults parseSchemaKeys resultsRaw

/-- Recogniser for the out-of-range panic outcome. -/
def isPanicOOB : QueryOutcome → Bool
  | .panicOOB => true
  | _ => false

/-- The header object decoded from the first frame of the `/query-stream`
response (`QueryResultHeader`, src/client.go:309-316). -/
structure QueryResultHeader where
  queryID : String
  columnNames : List String
  columnTypes : List String
deriving Repr

/-- The `columns` value built by `Client.QueryStream` (src/client.go:371-374):
`count := len(header.ColumnNames)`, `names := header.ColumnNames`. -/
def queryStreamColumns (header : QueryResultHeader) : columns :=
  { count := header.columnNames.length, names := header.columnNames }

/-! ## Duplex insertion stream: acknowledgement reader -/

/-- An insert acknowledgement (`InsertsStreamAck`, src/client.go:407-410).
`seq` is an `int64` in Go; the values handled here stay far below 2^63,
so it is modelled as `Int`. -/
structure InsertsStreamAck where
  status : String
  seq : Int
deriving Repr, DecidableEq

/-- The Go zero value `var ack InsertsStreamAck` (src/client.go:458). -/
def zeroAck : InsertsStreamAck := { status := "", seq := 0 }

/-- One line obtained by the ack goroutine's scanner (src/client.go:457-459):
either it unmarshals into an `InsertsStreamAck`, or `json.Unmarshal` fails
(a line that is not JSON leaves `ack` at its zero value). -/
inductive AckLine where
  | ok (a : InsertsStreamAck) : AckLine
  | bad : AckLine
deriving Repr, DecidableEq

/-- Channel-level events performed by the background goroutine of
`Client.InsertsStream` (src/client.go:454-470), in program order. -/
inductive AckEv where
  | ackSent (a : InsertsStreamAck) : AckEv
  | errSent : AckEv
  | errChClose : AckEv
  | ackChClose : AckEv
deriving Repr, DecidableEq

/-- State of the background goroutine: the trace of channel events so far,
whether `close(errCh)` has run, and whether the goroutine has panicked
(a send on a closed channel panics in Go). -/
structure AckReaderState where
  events : List AckEv
  errChClosed : Bool
  panicked : Bool
deriving Repr, DecidableEq

/-- One iteration of the scanner loop (src/client.go:457-465).  On a line
that fails to unmarshal, the code sends on `errCh` and closes it but does
NOT leave the loop: control falls through to `ackCh <- ack` with `ack`
still the zero value.  A second failure sends on the already-closed
`errCh`, which panics.  `errCh` has buffer 1 (src/client.go:441), so the
first send never blocks. -/
def ackStep (s : AckReaderState) (l : AckLine) : AckReaderState :=
  if s.panicked then s
  else
    match l with
    | .ok a => { s with events := s.events ++ [.ackSent a] }
    | .bad =>
      if s.errChClosed then { s with panicked := true }
      else
        { s with
          events := s.events ++ [.errSent, .errChClose, .ackSent zeroAck]
          errChClosed := true }

/-- The whole goroutine (src/client.go:454-470): scan each line; after the
loop, if `sc.Err()` reports an I/O error, send it on `errCh` and close
`errCh` (panicking if `errCh` is already closed); `defer close(ackCh)` runs
on every exit, including a panicking one. -/
def ackReader (lines : List AckLine) (scanErr : Bool) : AckReaderState :=
  let s := lines.foldl ackStep { events := [], errChClosed := false, panicked := false }
  let s :=
    if s.panicked then s
    else if scanErr then
      if s.errChClosed then { s with panicked := true }
      else
        { s with
          events := s.events ++ [.errSent, .errChClose]
          errChClosed := true }
    else s
  { s with events := s.events ++ [.ackChClose] }

/-! ## Close routines -/

/-- Observable close-time operations of the two stream closers. -/
inductive CloseEv where
  | reqClose : CloseEv
  | respDrain : CloseEv
  | respClose : CloseEv
  | closeQueryReq : CloseEv
  | bodyClose : CloseEv
deriving Repr, DecidableEq

/-- `InsertsStreamCloser.Close` (src/client.go:419-430): close the request
pipe, drain the response body into `ioutil.Discard`, close the response
body, aborting at the first failure.  The outcome of each collaborator
operation is passed in, since pipe and body belong to the transport. -/
def insertsStreamCloserClose (reqCloseRes drainRes respCloseRes : Except String Unit) :
    List CloseEv × Except String Unit :=
  match reqCloseRes with
  | .error e => ([.reqClose], .error e)
  | .ok _ =>
    match drainRes with
    | .error e => ([.reqClose, .respDrain], .error e)
    | .ok _ =>
      match respCloseRes with
      | .error e => ([.reqClose, .respDrain, .respClose], .error e)
      | .ok _ => ([.reqClose, .respDrain, .respClose], .ok ())

/-- `queryStreamReadCloser.Close` (src/client.go:336-341): issue the
`CloseQuery` terminate request; if it fails, return that error at once
(the body is NOT closed); otherwise close the body and return its
result. -/
def queryStreamReadCloserClose (closeQueryRes bodyCloseRes : Except String Unit) :
    List CloseEv × Except String Unit :=
  match closeQueryRes with
  | .error e => ([.closeQueryReq], .error e)
  | .ok _ => ([.closeQueryReq, .bodyClose], bodyCloseRes)

/-- Behaviour of the HTTP response body across repeated closes.  The body
is owned by the injected HTTP/2 transport, so each operation's outcome is
a parameter: `drainOpen`/`drainClosed` are the results of
`io.Copy(ioutil.Discard, resp)` before and after the body has been closed
(the HTTP/2 transport used by `New` rejects reads on a closed response
body), and `closeRes`/`closeAgainRes` the results of the first and of a
repeated `resp.Close()`. -/
structure RespBodyModel where
  drainOpen : Except String Unit
  drainClosed : Except String Unit
  closeRes : Except String Unit
  closeAgainRes : Except String Unit
deriving Repr

/-- One run of `InsertsStreamCloser.Close` (src/client.go:419-430) against
a response body that may already have been closed by an earlier run.
`io.Pipe` reader `Close` always returns nil, also when repeated, so the
`i.req.Close()` step never fails.  Returns the body-closed flag after the
run and the run's result.  Attempting `resp.Close()` marks the body
closed whether or not it reports an error. -/
def insertsCloseOnce (m : RespBodyModel) (respClosed : Bool) :
    Bool × Except String Unit :=
  match (if respClosed then m.drainClosed else m.drainOpen) with
  | .error e => (respClosed, .error e)
  | .ok _ =>
    match (if respClosed then m.closeAgainRes else m.closeRes) with
    | .error e => (true, .error e)
    | .ok _ => (true, .ok ())

/-- Two consecutive calls of `InsertsStreamCloser.Close`, threading the
body state; yields the result of each call. -/
def insertsCloseTwice (m : RespBodyModel) :
    Except String Unit × Except String Unit :=
  let r1 := insertsCloseOnce m false
  (r1.2, (insertsCloseOnce m r1.1).2)

/-! ## Session close -/

/-- The inner loop shape of `Client.Close` (src/client.go:560-578) over one
membership slice: a `none` entry is a nil pointer and is skipped; a `some`
entry is a registered member whose `Close` would return the given result.
Yields how many member `Close` calls were made and the returned error:
the loop returns the first error at once, abandoning the rest. -/
def closeLoop : List (Option (Except String Unit)) → Nat × Except String Unit
  | [] => (0, .ok ())
  | none :: rest => closeLoop rest
  | some (.error e) :: _ => (1, .error e)
  | some (.ok _) :: rest =>
    let p := closeLoop rest
    (p.1 + 1, p.2)

/-- `Client.Close` (src/client.go:560-578): walk the registered row
readers, then the registered insert-stream writers, with the fail-fast
loop above; an error among the readers returns before any writer is
attempted. -/
def clientClose (rows wtrs : List (Option (Except String Unit))) :
    Nat × Except String Unit :=
  match closeLoop rows with
  | (n, .error e) => (n, .error e)
  | (n, .ok _) =>
    let p := closeLoop wtrs
    (n + p.1, p.2)

/-- First element of a result list that is an error, as the session-close
claim words it ("returns the first error encountered"). -/
def firstErr : List (Except String Unit) → Except String Unit
  | [] => .ok ()
  | .error e :: _ => .error e
  | .ok _ :: rest => firstErr rest

/-- Number of results consumed up to and including the first error. -/
def countToFirstErr : List (Except String Unit) → Nat
  | [] => 0
  | .error _ :: _ => 1
  | .ok _ :: rest => countToFirstErr rest + 1

/-! ## Opening the insertion stream and inserting -/

/-- A framed unit written on the outbound path of the inserts stream. -/
inductive OutUnit where
  | target (payload : String) : OutUnit
  | record (r : JValue) : OutUnit
deriving Repr

/-- The state of an `InsertsStreamWriter` relevant to its contract: the
units encoded to the outbound pipe in order, the issued sequence numbers
held in the correlation map `ackMap` (its string values are touched by no
code under src/), and the `curr` counter.  `curr` is initialised to 0 at
construction (src/client.go:474). -/
structure InsertsStreamWriter where
  outbound : List OutUnit
  ackMap : List Int
  curr : Int
deriving Repr

/-- `Client.InsertsStream` (src/client.go:433-481): build the request
(may fail), run `enc.Encode(&payload)` in an errgroup task concurrently
with `http.Do` (writes into the pipe the request body reads from), return
the transport error if `Do` fails, then `g.Wait()` — the call returns
only after the target encode has finished, and returns its error if it
failed.  On success the writer starts with the encoded target descriptor
as the sole (hence first) framed unit on the outbound path, an empty
correlation map and `curr = 0`. -/
def insertsStreamOpen (payload : String)
    (makeReqRes doRes encodeTargetRes : Except String Unit) :
    Except String InsertsStreamWriter :=
  match makeReqRes with
  | .error e => .error e
  | .ok _ =>
    match doRes with
    | .error e => .error e
    | .ok _ =>
      match encodeTargetRes with
      | .error e => .error e
      | .ok _ => .ok { outbound := [.target payload], ackMap := [], curr := 0 }

/-- Modelled from the spec: `InsertsStreamWriter.Insert` is defined in a
file of this repository that is not under src/; the spec says it "assigns
the next monotonically increasing sequence number (starting at 0, strictly
increasing, never reused), records a Pending Insert under that number,
encodes the record to the outbound path, and returns the assigned sequence
number".  The starting point `curr = 0` is from src/client.go:474. -/
def insert (w : InsertsStreamWriter) (r : JValue) : Int × InsertsStreamWriter :=
  (w.curr,
    { outbound := w.outbound ++ [.record r]
      ackMap := w.ackMap ++ [w.curr]
      curr := w.curr + 1 })

/-- Sequential `Insert` calls for a list of records; yields the returned
sequence numbers in call order and the final writer state. -/
def insertAll (w : InsertsStreamWriter) (rs : List JValue) :
    List Int × InsertsStreamWriter :=
  match rs with
  | [] => ([], w)
  | r :: rest =>
    let p := insert w r
    let q := insertAll p.2 rest
    (p.1 :: q.1, q.2)

/-! ## Helper lemmas -/

/-- Folding the scanner loop over well-formed lines only appends the
corresponding ack deliveries and touches neither flag. -/
lemma ackStep_foldl_ok (acks : List InsertsStreamAck) (s : AckReaderState)
    (h : s.panicked = false) :
    List.foldl ackStep s (acks.map AckLine.ok) =
      { s with events := s.events ++ acks.map AckEv.ackSent } := by
  induction acks generalizing s with
  | nil => simp
  | cons a rest ih =>
    have hs : (ackStep s (.ok a)).panicked = false := by
      simp [ackStep, h]
    rw [List.map_cons, List.foldl_cons, ih _ hs]
    simp [ackStep, h]

/-! ## Claims -/

/-- C1: the spec claims any decode or I/O failure of the background
acknowledgement reader is delivered exactly once on the error channel,
after which nothing further is delivered on either channel.  The code
(src/client.go:454-470) lacks a `return` after closing `errCh`: on the
response body consisting of one malformed line followed by one well-formed
acknowledgement line, the reader sends the decode error and closes the
error channel, but then still sends the zero-value acknowledgement and the
following acknowledgement on the ack channel; and on two malformed lines
it panics by sending on the already-closed error channel. -/
theorem ackReader_continues_after_error :
    ackReader [.bad, .ok { status := "ok", seq := 0 }] false =
      { events := [.errSent, .errChClose, .ackSent zeroAck,
                   .ackSent { status := "ok", seq := 0 }, .ackChClose]
        errChClosed := true
        panicked := false } ∧
    (ackReader [.bad, .bad] false).panicked = true := by
  exact ⟨rfl, rfl⟩

/-- C2 counterexample: when the terminate-query request fails, `Close`
(src/client.go:336-341) returns that error at once and the response byte
source is never closed — `bodyClose` is absent from the trace — contrary
to the claim that the byte source is still released and the failure
reported after cleanup. -/
theorem queryStreamClose_leaks_body :
    queryStreamReadCloserClose (.error "terminate failed") (.ok ()) =
      ([.closeQueryReq], .error "terminate failed") ∧
    CloseEv.bodyClose ∉
      (queryStreamReadCloserClose (.error "terminate failed") (.ok ())).1 := by
  refine ⟨rfl, ?_⟩
  intro h
  simp [queryStreamReadCloserClose] at h

/-- C2 amended: `queryStreamReadCloser.Close` is fail-fast — if the
terminate request fails it returns that error immediately and does not
close the underlying byte source; the byte source is closed only when the
terminate request succeeds, in which case the body-close result is
returned. -/
theorem queryStreamClose_failfast (e : String) (bodyCloseRes : Except String Unit) :
    queryStreamReadCloserClose (.error e) bodyCloseRes =
      ([.closeQueryReq], .error e) ∧
    queryStreamReadCloserClose (.ok ()) bodyCloseRes =
      ([.closeQueryReq, .bodyClose], bodyCloseRes) :=
  ⟨rfl, rfl⟩

/-- C4 counterexample: a freshly opened stream has issued no sequence
numbers at all, yet an acknowledgement with `seq = 42` is delivered on the
ack channel as an ordinary acknowledgement and no error event occurs: the
goroutine (src/client.go:454-470) never consults the issued-sequence
table `ackMap`, so an unknown `seq` is not surfaced as a protocol
violation. -/
theorem ack_unknown_seq_delivered_ordinarily :
    ackReader [.ok { status := "ok", seq := 42 }] false =
      { events := [.ackSent { status := "ok", seq := 42 }, .ackChClose]
        errChClosed := false
        panicked := false } := rfl

/-- C4 amended: every acknowledgement the background reader decodes is
forwarded on the ack channel as an ordinary acknowledgement with its
decoded `status` and `seq`, whether or not that `seq` was ever issued by
this stream; no check against the correlation table is made, so unknown
sequence numbers surface no error and the error channel stays untouched. -/
theorem ack_forwarding_unconditional (acks : List InsertsStreamAck) :
    (ackReader (acks.map AckLine.ok) false).events =
      acks.map AckEv.ackSent ++ [AckEv.ackChClose] ∧
    (ackReader (acks.map AckLine.ok) false).errChClosed = false := by
  unfold ackReader
  rw [ackStep_foldl_ok _ _ rfl]
  simp

/-- C5: `InsertsStreamCloser.Close` (src/client.go:419-430) performs, in
this order, the close of the outbound request pipe, then the drain of the
remaining response-body bytes, then the close of the response body — its
trace is always an initial segment of that sequence (truncated at the
first failure), and on full success it is exactly that sequence. -/
theorem insertsCloserClose_order (rc dc cc : Except String Unit) :
    (∃ t, (insertsStreamCloserClose rc dc cc).1 ++ t =
        [CloseEv.reqClose, CloseEv.respDrain, CloseEv.respClose]) ∧
    insertsStreamCloserClose (.ok ()) (.ok ()) (.ok ()) =
      ([CloseEv.reqClose, CloseEv.respDrain, CloseEv.respClose], .ok ()) := by
  refine ⟨?_, rfl⟩
  cases rc with
  | error e => exact ⟨[CloseEv.respDrain, CloseEv.respClose], rfl⟩
  | ok u =>
    cases dc with
    | error e => exact ⟨[CloseEv.respClose], rfl⟩
    | ok v =>
      cases cc with
      | error e => exact ⟨[], rfl⟩
      | ok w => exact ⟨[], rfl⟩

/-- One membership slice of the fail-fast loop agrees with the first-error
reading of its non-nil entries. -/
lemma closeLoop_eq (ms : List (Option (Except String Unit))) :
    closeLoop ms =
      (countToFirstErr (ms.filterMap id), firstErr (ms.filterMap id)) := by
  induction ms with
  | nil => rfl
  | cons m rest ih =>
    match m with
    | none => simpa [closeLoop] using ih
    | some (.error e) => rfl
    | some (.ok u) =>
      simp [closeLoop, countToFirstErr, firstErr, ih]

/-- `firstErr` over an appended list when the left part is error-free. -/
lemma firstErr_append_ok (xs ys : List (Except String Unit))
    (h : firstErr xs = .ok ()) :
    firstErr (xs ++ ys) = firstErr ys := by
  induction xs with
  | nil => rfl
  | cons x rest ih =>
    match x with
    | .error e => simp [firstErr] at h
    | .ok u => exact ih (by simpa [firstErr] using h)

/-- `firstErr` over an appended list when the left part errors. -/
lemma firstErr_append_err (xs ys : List (Except String Unit)) (e : String)
    (h : firstErr xs = .error e) :
    firstErr (xs ++ ys) = .error e := by
  induction xs with
  | nil => simp [firstErr] at h
  | cons x rest ih =>
    match x with
    | .error e2 => simpa [firstErr] using h
    | .ok u => exact ih (by simpa [firstErr] using h)

/-- `countToFirstErr` over an appended list when the left part is
error-free. -/
lemma countToFirstErr_append_ok (xs ys : List (Except String Unit))
    (h : firstErr xs = .ok ()) :
    countToFirstErr (xs ++ ys) = countToFirstErr xs + countToFirstErr ys := by
  induction xs with
  | nil => simp [countToFirstErr]
  | cons x rest ih =>
    match x with
    | .error e => simp [firstErr] at h
    | .ok u =>
      have hr := ih (by simpa [firstErr] using h)
      show countToFirstErr (rest ++ ys) + 1 =
        countToFirstErr rest + 1 + countToFirstErr ys
      omega

/-- `countToFirstErr` over an appended list when the left part errors. -/
lemma countToFirstErr_append_err (xs ys : List (Except String Unit))
    (e : String) (h : firstErr xs = .error e) :
    countToFirstErr (xs ++ ys) = countToFirstErr xs := by
  induction xs with
  | nil => simp [firstErr] at h
  | cons x rest ih =>
    match x with
    | .error e2 => rfl
    | .ok u =>
      have hr := ih (by simpa [firstErr] using h)
      show countToFirstErr (rest ++ ys) + 1 = countToFirstErr rest + 1
      omega

/-- C3 counterexample: a session holding two registered row readers whose
first member's `Close` fails: `Client.Close` (src/client.go:560-578) makes
exactly one member `Close` call — the second registered member is never
attempted — and returns the first error, contrary to the claim that every
registered member is attempted. -/
theorem clientClose_abandons_rest :
    clientClose [some (.error "member close failed"), some (.ok ())] [] =
      (1, .error "member close failed") := rfl

/-- C3 amended: session `Close` walks the registered row readers and then
the registered insert-stream writers in order, skipping nil entries, and
returns the first error encountered, stopping at that point: the number of
member `Close` calls made is the number of non-nil members up to and
including the first failing one, so members after the first failure are
left unclosed (fail-fast, not complete-attempt). -/
theorem clientClose_first_error_failfast
    (rows wtrs : List (Option (Except String Unit))) :
    clientClose rows wtrs =
      (countToFirstErr ((rows ++ wtrs).filterMap id),
       firstErr ((rows ++ wtrs).filterMap id)) := by
  unfold clientClose
  rw [closeLoop_eq rows, closeLoop_eq wtrs, List.filterMap_append]
  cases h : firstErr (rows.filterMap id) with
  | error e =>
    rw [firstErr_append_err _ _ _ h, countToFirstErr_append_err _ _ _ h]
  | ok u =>
    cases u
    rw [firstErr_append_ok _ _ h, countToFirstErr_append_ok _ _ h]

/-- The response-body behaviour of the HTTP/2 transport installed by `New`
(src/client.go:581-597): draining an open body succeeds, reading from a
closed body fails, and `Close` calls themselves succeed. -/
def http2Body : RespBodyModel :=
  { drainOpen := .ok ()
    drainClosed := .error "http2: response body closed"
    closeRes := .ok ()
    closeAgainRes := .ok () }

/-- C6 counterexample: with the response-body behaviour of the HTTP/2
transport the client installs, the first `InsertsStreamCloser.Close`
succeeds but the second returns an error, because the close sequence
(src/client.go:419-430) keeps no closed flag and re-drains the
already-closed response body.  This refutes the claim that a second Close
after a successful first returns no error for both stream types. -/
theorem insertsClose_second_errors :
    insertsCloseTwice http2Body =
      (.ok (), .error "http2: response body closed") := rfl

/-- C6 amended: neither closer records a closed state, so a second `Close`
re-runs the whole sequence.  For the insertion stream, a successful first
`Close` leaves the response body closed, and the second call's result is
exactly the body's drain-after-close outcome (then its repeat-close
outcome): the second call returns no error only if the underlying body
tolerates reads after close; for the row reader the terminate request is
simply re-issued. -/
theorem insertsClose_second_close (m : RespBodyModel)
    (h : (insertsCloseOnce m false).2 = .ok ()) :
    (insertsCloseOnce m false).1 = true ∧
    (insertsCloseOnce m true).2 =
      (match m.drainClosed with
       | .error e => .error e
       | .ok _ => m.closeAgainRes) := by
  constructor
  · cases hd : m.drainOpen with
    | error e => simp [insertsCloseOnce, hd] at h
    | ok u =>
      cases hc : m.closeRes with
      | error e => simp [insertsCloseOnce, hd, hc]
      | ok v => simp [insertsCloseOnce, hd, hc]
  · cases hd : m.drainClosed with
    | error e => simp [insertsCloseOnce, hd]
    | ok u =>
      cases hc : m.closeAgainRes with
      | error e => simp [insertsCloseOnce, hd, hc]
      | ok v => simp [insertsCloseOnce, hd, hc]

/-- Witness for the amended C6 theorem at the HTTP/2 body behaviour. -/
theorem insertsClose_second_close_witness :
    (insertsCloseOnce http2Body false).2 = .ok () ∧
    ((insertsCloseOnce http2Body false).1 = true ∧
     (insertsCloseOnce http2Body true).2 =
       .error "http2: response body closed") :=
  ⟨rfl, insertsClose_second_close http2Body rfl⟩

/-- Sequential inserts append exactly the records, in order, after the
existing outbound units. -/
lemma insertAll_outbound (rs : List JValue) (w : InsertsStreamWriter) :
    ((insertAll w rs).2).outbound = w.outbound ++ rs.map OutUnit.record := by
  induction rs generalizing w with
  | nil => simp [insertAll]
  | cons r rest ih =>
    show ((insertAll (insert w r).2 rest).2).outbound = _
    rw [ih]
    show (w.outbound ++ [OutUnit.record r]) ++ rest.map OutUnit.record =
      w.outbound ++ (OutUnit.record r :: rest.map OutUnit.record)
    rw [List.append_assoc]
    rfl

/-- The sequence numbers returned by consecutive inserts count up from the
writer's current counter. -/
lemma insertAll_seqs (rs : List JValue) (w : InsertsStreamWriter) :
    (insertAll w rs).1 =
      (List.range rs.length).map (fun i : Nat => w.curr + (i : Int)) := by
  induction rs generalizing w with
  | nil => rfl
  | cons r rest ih =>
    show w.curr :: (insertAll (insert w r).2 rest).1 =
      (List.range (rest.length + 1)).map (fun i : Nat => w.curr + (i : Int))
    rw [ih, List.range_succ_eq_map]
    have hc : ((fun i : Nat => w.curr + (i : Int)) ∘ Nat.succ) =
        fun i : Nat => w.curr + 1 + (i : Int) := by
      funext i
      simp only [Function.comp_apply, Nat.succ_eq_add_one]
      push_cast
      ring
    simp only [List.map_cons, List.map_map, hc, Nat.cast_zero, add_zero]
    rfl

/-- C7: opening the inserts stream (src/client.go:433-481) returns a
handle only if the target-descriptor encode has completed successfully,
and then the encoded target descriptor is the first framed unit on the
outbound path (and stays first under any sequence of inserts); if the
encode fails while the request itself succeeds, the opening call returns
the encode error instead of a handle. -/
theorem insertsStreamOpen_target_first (p : String)
    (mr dr er : Except String Unit) :
    (∀ w, insertsStreamOpen p mr dr er = .ok w →
        er = .ok () ∧ w.outbound = [OutUnit.target p] ∧
        ∀ rs, ((insertAll w rs).2).outbound.head? = some (OutUnit.target p)) ∧
    (∀ e, mr = .ok () → dr = .ok () → er = .error e →
        insertsStreamOpen p mr dr er = .error e) := by
  constructor
  · intro w hw
    cases mr with
    | error e => simp [insertsStreamOpen] at hw
    | ok u =>
      cases dr with
      | error e => simp [insertsStreamOpen] at hw
      | ok v =>
        cases er with
        | error e => simp [insertsStreamOpen] at hw
        | ok t =>
          simp only [insertsStreamOpen] at hw
          injection hw with hww
          subst hww
          refine ⟨rfl, rfl, ?_⟩
          intro rs
          rw [insertAll_outbound]
          rfl
  · intro e h1 h2 h3
    subst h1
    subst h2
    subst h3
    rfl

/-- Witness for C7 at a concrete target and collaborator outcomes. -/
theorem insertsStreamOpen_target_first_witness :
    ((Except.ok () : Except String Unit) = .ok () ∧
      ({ outbound := [OutUnit.target "orders"], ackMap := [], curr := 0 } :
          InsertsStreamWriter).outbound = [OutUnit.target "orders"] ∧
      ((insertAll
          { outbound := [OutUnit.target "orders"], ackMap := [], curr := 0 }
          []).2).outbound.head? = some (OutUnit.target "orders")) ∧
    insertsStreamOpen "orders" (.ok ()) (.ok ()) (.error "encode failed") =
      .error "encode failed" := by
  have h1 :=
    (insertsStreamOpen_target_first "orders" (.ok ()) (.ok ()) (.ok ())).1
      { outbound := [OutUnit.target "orders"], ackMap := [], curr := 0 } rfl
  have h2 :=
    (insertsStreamOpen_target_first "orders" (.ok ()) (.ok ())
      (.error "encode failed")).2 "encode failed" rfl rfl rfl
  exact ⟨⟨h1.1, h1.2.1, h1.2.2 []⟩, h2⟩

/-- C8: on a freshly opened inserts stream (`curr` starts at 0,
src/client.go:474), N sequential Insert calls return the sequence numbers
0 through N-1 in order — numbering starts at 0, increases strictly by one
per call and never reuses a number.  `Insert` itself is modelled from the
spec, as its defining file lies outside src/. -/
theorem insert_seq_numbers (p : String) (rs : List JValue)
    (w : InsertsStreamWriter)
    (hw : insertsStreamOpen p (.ok ()) (.ok ()) (.ok ()) = .ok w) :
    (insertAll w rs).1 =
      (List.range rs.length).map (fun i : Nat => (i : Int)) := by
  simp only [insertsStreamOpen] at hw
  injection hw with hww
  subst hww
  rw [insertAll_seqs]
  simp

/-- Witness for C8: three inserts on a fresh stream return 0, 1, 2. -/
theorem insert_seq_numbers_witness :
    (insertAll { outbound := [OutUnit.target "orders"], ackMap := [], curr := 0 }
        [JValue.null, JValue.null, JValue.null]).1 = [0, 1, 2] := by
  have h := insert_seq_numbers "orders" [JValue.null, JValue.null, JValue.null]
    { outbound := [OutUnit.target "orders"], ackMap := [], curr := 0 } rfl
  simpa using h

/-- Any `ok` outcome of the header-processing stage carries a schema whose
count is the length of its names, or the untouched `-1` sentinel with no
names. -/
lemma queryProcessResults_ok_cols (psk : String → List String)
    (resultsRaw : List (List (String × JValue)))
    (rows : List (List (String × JValue))) (cols : columns)
    (h : queryProcessResults psk resultsRaw = .ok rows cols) :
    cols.count = (cols.names.length : Int) ∨
      (cols.count = -1 ∧ cols.names = []) := by
  unfold queryProcessResults at h
  repeat' split at h
  all_goals cases h
  all_goals simp

/-- C9: the row-schema invariant.  On the non-streaming query path
(src/client.go:85-99), any schema produced alongside rows either has
`count` equal to the length of its column names (header parsed) or is the
`-1` sentinel with empty names (header absent); on the streaming path
(src/client.go:371-374) the count always equals the number of column
names from the header. -/
theorem query_columns_invariant (psk : String → List String) (body : JValue)
    (rows : List (List (String × JValue))) (cols : columns)
    (hd : QueryResultHeader)
    (h : queryProcess psk body = .ok rows cols) :
    (cols.count = (cols.names.length : Int) ∨
      (cols.count = -1 ∧ cols.names = [])) ∧
    (queryStreamColumns hd).count =
      ((queryStreamColumns hd).names.length : Int) := by
  refine ⟨?_, rfl⟩
  unfold queryProcess at h
  split at h
  · simp at h
  · split at h
    · simp at h
    · exact queryProcessResults_ok_cols _ _ _ _ h

/-- Parse function used by the C9 witness: two column names. -/
def wPsk : String → List String := fun _ => ["a", "b"]

/-- Response body used by the C9 witness: a header record carrying a
schema string, followed by one empty row record. -/
def wBody : JValue :=
  .arr [.obj [("header", .obj [("schema", .str "k")])], .obj []]

/-- Schema produced by `queryProcess wPsk wBody`. -/
def wCols : columns := { count := 2, names := ["a", "b"] }

/-- Streaming header used by the C9 witness. -/
def wHd : QueryResultHeader :=
  { queryID := "q1", columnNames := ["a"], columnTypes := ["STRING"] }

/-- Witness for C9 at a concrete body, parse function and header. -/
theorem query_columns_invariant_witness :
    (wCols.count = (wCols.names.length : Int) ∨
      (wCols.count = -1 ∧ wCols.names = [])) ∧
    (queryStreamColumns wHd).count =
      ((queryStreamColumns wHd).names.length : Int) :=
  query_columns_invariant wPsk wBody [[]] wCols wHd rfl

/-- The header-processing stage never hits the out-of-range panic when the
decoded slice is non-empty. -/
lemma queryProcessResults_cons_not_oob (psk : String → List String)
    (a : List (String × JValue)) (as : List (List (String × JValue))) :
    isPanicOOB (queryProcessResults psk (a :: as)) = false := by
  cases hh : jlookup a "header" with
  | none => simp [queryProcessResults, hh, isPanicOOB]
  | some hv =>
    cases hv with
    | obj headerMap =>
      cases hsch : jlookup headerMap "schema" with
      | none => simp [queryProcessResults, hh, hsch, isPanicOOB]
      | some sv =>
        cases sv <;> simp [queryProcessResults, hh, hsch, isPanicOOB]
    | null => simp [queryProcessResults, hh, isPanicOOB]
    | bool b => simp [queryProcessResults, hh, isPanicOOB]
    | num n => simp [queryProcessResults, hh, isPanicOOB]
    | str s => simp [queryProcessResults, hh, isPanicOOB]
    | arr xs => simp [queryProcessResults, hh, isPanicOOB]

/-- C10: on the well-formed response body that is the empty JSON array,
`Client.Query` (src/client.go:76-99) reaches the out-of-range index
`resultsRaw[0]` — a runtime panic, not a returned error; and this panic is
reached only there: for any array-shaped body with at least one element
the out-of-range access cannot occur. -/
theorem query_empty_array_oob (psk : String → List String) (first : JValue)
    (rest : List JValue) :
    isPanicOOB (queryProcess psk (.arr [])) = true ∧
    isPanicOOB (queryProcess psk (.arr (first :: rest))) = false := by
  refine ⟨rfl, ?_⟩
  cases hf : unmarshalMap first with
  | none =>
    have hs : unmarshalMapSlice (JValue.arr (first :: rest)) = none := by
      simp [unmarshalMapSlice, unmarshalMapList, hf]
    simp [queryProcess, unmarshalMap, hs, isPanicOOB]
  | some m =>
    cases hr : unmarshalMapList rest with
    | none =>
      have hs : unmarshalMapSlice (JValue.arr (first :: rest)) = none := by
        simp [unmarshalMapSlice, unmarshalMapList, hf, hr]
      simp [queryProcess, unmarshalMap, hs, isPanicOOB]
    | some ms =>
      have hs : unmarshalMapSlice (JValue.arr (first :: rest)) =
          some (m :: ms) := by
        simp [unmarshalMapSlice, unmarshalMapList, hf, hr]
      simp [queryProcess, unmarshalMap, hs, queryProcessResults_cons_not_oob]

end KsqlGo
